import Mathlib

/-!
Verification of the enhanced-kalshi-bot admin/webapp control logic.

The repository's state-bearing logic lives in the React pages:
the telegram webapp `Trading` page (bot start/stop/trading-toggle/emergency
handlers acting on the shared `botStatus` record), the desktop admin panel
`TradingControl` page (same four handlers plus a settings save handler), the
desktop `Strategies` page (strategy enable toggle, allocation change), and the
settings pages. Each handler is embedded here as a pure function on an explicit
state value; the timestamp a handler would take from `new Date().toISOString()`
is passed in as a `now : String` parameter, and the user-visible toast call of
each handler is returned as a `Toast` value.
-/

namespace KalshiBot

/-- Outcome surfaced to the user through the `sonner` toast API: either a
`toast.success msg` or a `toast.error msg` call. -/
inductive Toast where
  | success (msg : String)
  | error (msg : String)
deriving DecidableEq, Repr

/-- Whether a toast is an error toast. -/
def Toast.isError : Toast → Bool
  | .error _ => true
  | .success _ => false

/-- The shared `botStatus` React state record, as initialised in `App.jsx` of
both the telegram webapp (`src/unnamed/part_001`) and the desktop admin panel:
`{ isRunning: false, isTradingEnabled: false, lastUpdate: null }`. -/
structure BotStatus where
  isRunning : Bool
  isTradingEnabled : Bool
  lastUpdate : Option String
deriving DecidableEq, Repr

/-- The initial `botStatus` value from `App.jsx`. -/
def initialBotStatus : BotStatus :=
  { isRunning := false, isTradingEnabled := false, lastUpdate := none }

namespace Trading

/-!
Handlers of the telegram webapp `Trading` page (`src/unnamed/part_003`),
together with the `disabled` conditions of the buttons/switch that invoke
them. Each `handleX` function is the body of the corresponding handler's
`setBotStatus` update plus its toast; each `xDisabled` function is the
`disabled={...}` attribute of the control wired to that handler, and the
guarded operation `x` applies the handler only when the control is enabled.
-/

/-- `handleStartBot`: sets `isRunning: true` and refreshes `lastUpdate`,
then `toast.success('Trading bot started')`. -/
def handleStartBot (prev : BotStatus) (now : String) : BotStatus × Toast :=
  ({ prev with isRunning := true, lastUpdate := some now },
   .success "Trading bot started")

/-- `handleStopBot`: sets `isRunning: false, isTradingEnabled: false` and
refreshes `lastUpdate`, then `toast.success('Trading bot stopped')`. -/
def handleStopBot (prev : BotStatus) (now : String) : BotStatus × Toast :=
  ({ prev with
      isRunning := false,
      isTradingEnabled := false,
      lastUpdate := some now },
   .success "Trading bot stopped")

/-- `handleToggleTrading`: if the bot is not running, shows
`toast.error('Bot must be running first')` and returns without touching the
state; otherwise flips `isTradingEnabled`, refreshes `lastUpdate`, and shows
a success toast naming the new mode. -/
def handleToggleTrading (s : BotStatus) (now : String) : BotStatus × Toast :=
  if !s.isRunning then
    (s, .error "Bot must be running first")
  else
    ({ s with isTradingEnabled := !s.isTradingEnabled, lastUpdate := some now },
     .success ("Trading " ++ (if !s.isTradingEnabled then "enabled" else "disabled")))

/-- `handleEmergencyStop`: unconditionally sets
`isRunning: false, isTradingEnabled: false`, refreshes `lastUpdate`, and shows
`toast.error('Emergency stop activated')` (an error-styled toast reporting
success of the stop). -/
def handleEmergencyStop (s : BotStatus) (now : String) : BotStatus × Toast :=
  ({ s with
      isRunning := false,
      isTradingEnabled := false,
      lastUpdate := some now },
   .error "Emergency stop activated")

/-- `disabled={botStatus.isRunning || isLoading}` on the Start Bot button. -/
def startDisabled (s : BotStatus) (isLoading : Bool) : Bool :=
  s.isRunning || isLoading

/-- `disabled={!botStatus.isRunning || isLoading}` on the Stop Bot button. -/
def stopDisabled (s : BotStatus) (isLoading : Bool) : Bool :=
  !s.isRunning || isLoading

/-- `disabled={!botStatus.isRunning || isLoading}` on the trading Switch. -/
def toggleDisabled (s : BotStatus) (isLoading : Bool) : Bool :=
  !s.isRunning || isLoading

/-- `disabled={isLoading}` on the Emergency Stop button: available in every
bot state. -/
def emergencyDisabled (_ : BotStatus) (isLoading : Bool) : Bool :=
  isLoading

/-- The start operation as exposed by the UI: `none` when the Start Bot
button is disabled, otherwise the handler's result. -/
def startBot (s : BotStatus) (now : String) (isLoading : Bool) :
    Option (BotStatus × Toast) :=
  if startDisabled s isLoading then none else some (handleStartBot s now)

/-- The stop operation as exposed by the UI. -/
def stopBot (s : BotStatus) (now : String) (isLoading : Bool) :
    Option (BotStatus × Toast) :=
  if stopDisabled s isLoading then none else some (handleStopBot s now)

/-- The trading-toggle operation as exposed by the UI. -/
def toggleTrading (s : BotStatus) (now : String) (isLoading : Bool) :
    Option (BotStatus × Toast) :=
  if toggleDisabled s isLoading then none else some (handleToggleTrading s now)

/-- The emergency-stop operation as exposed by the UI. -/
def emergencyStop (s : BotStatus) (now : String) (isLoading : Bool) :
    Option (BotStatus × Toast) :=
  if emergencyDisabled s isLoading then none else some (handleEmergencyStop s now)

end Trading

namespace TradingControl

/-!
Handlers of the desktop admin panel `TradingControl` page
(`src/desktop_admin_panel/src/pages/TradingControl.jsx`). The state logic is
the same as the webapp `Trading` page; only the toast messages differ. The
button/switch `disabled` conditions are identical to the webapp page's.
-/

/-- `handleStartBot` of TradingControl.jsx. -/
def handleStartBot (prev : BotStatus) (now : String) : BotStatus × Toast :=
  ({ prev with isRunning := true, lastUpdate := some now },
   .success "Trading bot started successfully")

/-- `handleStopBot` of TradingControl.jsx. -/
def handleStopBot (prev : BotStatus) (now : String) : BotStatus × Toast :=
  ({ prev with
      isRunning := false,
      isTradingEnabled := false,
      lastUpdate := some now },
   .success "Trading bot stopped successfully")

/-- `handleToggleTrading` of TradingControl.jsx: errors with
`'Bot must be running to enable trading'` when the bot is not running. -/
def handleToggleTrading (s : BotStatus) (now : String) : BotStatus × Toast :=
  if !s.isRunning then
    (s, .error "Bot must be running to enable trading")
  else
    ({ s with isTradingEnabled := !s.isTradingEnabled, lastUpdate := some now },
     .success ("Trading " ++ (if !s.isTradingEnabled then "enabled" else "disabled")))

/-- `handleEmergencyStop` of TradingControl.jsx. -/
def handleEmergencyStop (s : BotStatus) (now : String) : BotStatus × Toast :=
  ({ s with
      isRunning := false,
      isTradingEnabled := false,
      lastUpdate := some now },
   .error "Emergency stop activated - All trading halted")

/-- Guarded start operation (Start Bot button disabled when
`botStatus.isRunning || isLoading`). -/
def startBot (s : BotStatus) (now : String) (isLoading : Bool) :
    Option (BotStatus × Toast) :=
  if s.isRunning || isLoading then none else some (handleStartBot s now)

/-- Guarded stop operation (Stop Bot button disabled when
`!botStatus.isRunning || isLoading`). -/
def stopBot (s : BotStatus) (now : String) (isLoading : Bool) :
    Option (BotStatus × Toast) :=
  if !s.isRunning || isLoading then none else some (handleStopBot s now)

/-- Guarded trading toggle (Switch disabled when
`!botStatus.isRunning || isLoading`). -/
def toggleTrading (s : BotStatus) (now : String) (isLoading : Bool) :
    Option (BotStatus × Toast) :=
  if !s.isRunning || isLoading then none else some (handleToggleTrading s now)

/-- Guarded emergency stop (button disabled only while `isLoading`). -/
def emergencyStop (s : BotStatus) (now : String) (isLoading : Bool) :
    Option (BotStatus × Toast) :=
  if isLoading then none else some (handleEmergencyStop s now)

/-- The `tradingSettings` React state record of TradingControl.jsx. Numeric
fields edited through integer sliders/inputs are `Int`; `minConfidence` is a
fraction edited in percent steps. -/
structure TradingSettings where
  maxPositionSize : Int
  riskLevel : String
  tradingInterval : Int
  enableSentimentStrategy : Bool
  enableArbitrageStrategy : Bool
  minConfidence : ℚ
  maxDailyTrades : Int
  stopLossEnabled : Bool
  stopLossPercentage : Int
deriving DecidableEq, Repr

/-- The initial `tradingSettings` value of TradingControl.jsx. -/
def defaultTradingSettings : TradingSettings :=
  { maxPositionSize := 10, riskLevel := "medium", tradingInterval := 300,
    enableSentimentStrategy := true, enableArbitrageStrategy := true,
    minConfidence := 7/10, maxDailyTrades := 50,
    stopLossEnabled := true, stopLossPercentage := 15 }

/-- `handleSaveSettings` of TradingControl.jsx: after a simulated API delay it
shows `toast.success('Settings saved successfully')`; the settings value is
not inspected, validated, transformed or clamped in any way. -/
def handleSaveSettings (_ : TradingSettings) : Toast :=
  .success "Settings saved successfully"

/-- The value ranges of the settings editors in TradingControl.jsx, read off
the `min`/`max` attributes of the sliders and number inputs: position size
1–25, trading interval 60–3600, minimum confidence 50–100 percent, daily
trades 1–200, and (when stop loss is enabled) stop-loss percentage 5–50.
A typed number input does not enforce its `min`/`max`, so the settings state
can hold values outside these ranges. -/
def settingsInRange (s : TradingSettings) : Bool :=
  (1 ≤ s.maxPositionSize && s.maxPositionSize ≤ 25) &&
  (60 ≤ s.tradingInterval && s.tradingInterval ≤ 3600) &&
  ((1/2 : ℚ) ≤ s.minConfidence && s.minConfidence ≤ 1) &&
  (1 ≤ s.maxDailyTrades && s.maxDailyTrades ≤ 200) &&
  (!s.stopLossEnabled || (5 ≤ s.stopLossPercentage && s.stopLossPercentage ≤ 50))

/-- A configuration with contradictory / out-of-range limits: zero allowed
daily trades (input minimum is 1) and a 10-second trading interval (input
minimum is 60). -/
def badSettings : TradingSettings :=
  { defaultTradingSettings with maxDailyTrades := 0, tradingInterval := 10 }

end TradingControl

namespace Settings

/-- `handleSaveSettings` of the webapp Settings page (`src/unnamed/part_000`):
`toast.success('Settings saved successfully')`, with no validation of the
`riskSettings` record (`maxPositionSize`, `stopLossEnabled`,
`stopLossPercentage`, `maxDailyTrades`). -/
structure RiskSettings where
  maxPositionSize : Int
  stopLossEnabled : Bool
  stopLossPercentage : Int
  maxDailyTrades : Int
deriving DecidableEq, Repr

/-- The initial `riskSettings` value of the webapp Settings page. -/
def defaultRiskSettings : RiskSettings :=
  { maxPositionSize := 10, stopLossEnabled := true,
    stopLossPercentage := 15, maxDailyTrades := 50 }

/-- The webapp Settings page's `handleSaveSettings`. -/
def handleSaveSettings (_ : RiskSettings) : Toast :=
  .success "Settings saved successfully"

end Settings

/-- One invocation of a bot control handler, tagged with the timestamp the
handler would read from the clock. -/
inductive ControlOp where
  | start (now : String)
  | stop (now : String)
  | toggle (now : String)
  | emergency (now : String)
deriving DecidableEq, Repr

/-- Apply one control handler (webapp `Trading` page handlers; the desktop
panel's have identical state effect) to the bot status, discarding the toast. -/
def applyOp (s : BotStatus) : ControlOp → BotStatus
  | .start now => (Trading.handleStartBot s now).1
  | .stop now => (Trading.handleStopBot s now).1
  | .toggle now => (Trading.handleToggleTrading s now).1
  | .emergency now => (Trading.handleEmergencyStop s now).1

/-- Run a sequence of control operations from a starting status. -/
def runOps (s : BotStatus) (ops : List ControlOp) : BotStatus :=
  ops.foldl applyOp s

end KalshiBot

namespace KalshiBot

namespace Strategies

/-!
The desktop admin panel `Strategies` page
(`src/desktop_admin_panel/src/pages/Strategies.jsx`). A strategy is a record
with an id, display name, description, enabled flag, allocation percentage and
two nested objects of named numeric values (`performance` and `settings`);
the nested objects are embedded as association lists from field name to
rational value, matching the JS objects key for key.
-/

/-- One element of the `strategies` React state array of Strategies.jsx. -/
structure Strategy where
  id : String
  name : String
  description : String
  enabled : Bool
  allocation : Int
  performance : List (String × ℚ)
  settings : List (String × ℚ)
deriving DecidableEq, Repr

/-- The `sentiment` strategy of the initial `strategies` state. -/
def sentimentStrategy : Strategy :=
  { id := "sentiment",
    name := "Advanced Sentiment Analysis",
    description := "Uses multiple NLP models to analyze market sentiment from news, social media, and financial reports",
    enabled := true,
    allocation := 60,
    performance :=
      [("totalPnL", 1120), ("winRate", 163/2), ("totalTrades", 79),
       ("avgConfidence", 79/100), ("sharpeRatio", 71/50)],
    settings :=
      [("minConfidence", 7/10), ("sentimentThreshold", 3/5),
       ("momentumWindow", 6), ("volumeThreshold", 3/2),
       ("maxCorrelation", 4/5)] }

/-- The `arbitrage` strategy of the initial `strategies` state. -/
def arbitrageStrategy : Strategy :=
  { id := "arbitrage",
    name := "Statistical Arbitrage",
    description := "Identifies pricing inefficiencies between correlated markets using statistical analysis",
    enabled := true,
    allocation := 40,
    performance :=
      [("totalPnL", 660), ("winRate", 923/10), ("totalTrades", 26),
       ("avgCorrelation", 43/50), ("sharpeRatio", 109/50)],
    settings :=
      [("minCorrelation", 7/10), ("zscoreThreshold", 2),
       ("lookbackDays", 30), ("minDataPoints", 20),
       ("maxPositionCorrelation", 4/5)] }

/-- The initial `strategies` state array of Strategies.jsx. -/
def initialStrategies : List Strategy :=
  [sentimentStrategy, arbitrageStrategy]

/-- `handleToggleStrategy`: maps over the strategy list, replacing the
strategy whose id matches with a copy whose `enabled` flag is negated and
leaving every other strategy untouched. -/
def handleToggleStrategy (strategyId : String) (prev : List Strategy) :
    List Strategy :=
  prev.map fun strategy =>
    if strategy.id = strategyId then
      { strategy with enabled := !strategy.enabled }
    else strategy

/-- `handleAllocationChange`: the strategy whose id matches receives
`newAllocation`; every other strategy receives `remainingAllocation`,
computed as `100 - newAllocation`. -/
def handleAllocationChange (strategyId : String) (newAllocation : Int)
    (prev : List Strategy) : List Strategy :=
  let remainingAllocation := 100 - newAllocation
  prev.map fun strategy =>
    if strategy.id = strategyId then
      { strategy with allocation := newAllocation }
    else
      { strategy with allocation := remainingAllocation }

/-- Sum of the allocation percentages of a strategy list. -/
def allocationSum (l : List Strategy) : Int :=
  (l.map (fun s => s.allocation)).sum

/-- Placeholder strategy used as the default value of positional lookups. -/
def dummyStrategy : Strategy :=
  { id := "", name := "", description := "", enabled := false,
    allocation := 0, performance := [], settings := [] }

end Strategies

namespace RiskManager

/-!
Modelled from the spec: the repository's src/ contains only the UI surfaces;
the RiskManager component itself (spec §4.3) has no code under src/, so its
`evaluate` contract is embedded here from the spec's words alone.
-/

/-- Trade direction of a signal (spec §3, Signal). -/
inductive Direction where
  | buy
  | sell
  | hold
deriving DecidableEq, Repr

/-- Modelled from the spec: a `Signal` record (§3) — market id, strategy id,
direction, strength in [0,1], suggested allocation fraction. -/
structure Signal where
  marketId : String
  strategyId : String
  direction : Direction
  strength : ℚ
  suggestedFraction : ℚ
deriving DecidableEq, Repr

/-- Modelled from the spec: the slice of `PortfolioState` (§3) read by the
risk checks of §4.3 — rolling daily trade count, daily loss, per-market
position fractions, total exposure fraction, per-market unrealized loss
percentages, and the pairwise correlation snapshot. -/
structure PortfolioState where
  dailyTradeCount : Nat
  dailyLoss : ℚ
  positionFraction : List (String × ℚ)
  totalExposure : ℚ
  unrealizedLossPct : List (String × ℚ)
  pairwiseCorrelation : List (String × String × ℚ)
deriving DecidableEq, Repr

/-- Modelled from the spec: the `RiskLimits` configuration record (§3). -/
structure RiskLimits where
  maxPortfolioExposure : ℚ
  maxPositionSize : ℚ
  maxDailyTrades : Nat
  maxDailyLoss : ℚ
  stopLossEnabled : Bool
  stopLossPercentage : ℚ
  maxCorrelation : ℚ
deriving DecidableEq, Repr

/-- An approved order: market, direction and (possibly scaled-down)
allocation fraction. -/
structure Order where
  marketId : String
  direction : Direction
  fraction : ℚ
deriving DecidableEq, Repr

/-- Result of a risk evaluation (spec §4.3 public contract). -/
inductive Decision where
  | approved (order : Order)
  | rejected (reason : String)
deriving DecidableEq, Repr

/-- Look up a per-market value in an association list, defaulting to 0. -/
def lookupQ (l : List (String × ℚ)) (k : String) : ℚ :=
  ((l.find? (fun p => p.1 = k)).map (fun p => p.2)).getD 0

/-- Modelled from the spec: `RiskManager.evaluate` (§4.3), applying the six
documented checks in order — daily trade count, daily loss, position-size
headroom with scale-down, portfolio-exposure headroom with scale-down,
stop-loss gating of new opening orders, and the pairwise-correlation cap —
the first failing check determining the rejection reason. It is a function
of exactly the three documented inputs and holds no state of its own. -/
def evaluate (signal : Signal) (p : PortfolioState) (limits : RiskLimits) :
    Decision :=
  if limits.maxDailyTrades ≤ p.dailyTradeCount then
    .rejected "DailyTradeLimitExceeded"
  else if limits.maxDailyLoss ≤ p.dailyLoss then
    .rejected "DailyLossLimitExceeded"
  else
    let current := lookupQ p.positionFraction signal.marketId
    let posHeadroom := limits.maxPositionSize - current
    if posHeadroom ≤ 0 then
      .rejected "PositionLimitExceeded"
    else
      let sizedOnce := min signal.suggestedFraction posHeadroom
      let expHeadroom := limits.maxPortfolioExposure - p.totalExposure
      if expHeadroom ≤ 0 then
        .rejected "ExposureLimitExceeded"
      else
        let sized := min sizedOnce expHeadroom
        if limits.stopLossEnabled &&
           decide (limits.stopLossPercentage ≤
             lookupQ p.unrealizedLossPct signal.marketId) &&
           decide (signal.direction = .buy) then
          .rejected "StopLossActive"
        else if p.pairwiseCorrelation.any fun c =>
            (c.1 = signal.marketId || c.2.1 = signal.marketId) &&
            decide (limits.maxCorrelation < c.2.2) then
          .rejected "CorrelationLimitExceeded"
        else
          .approved { marketId := signal.marketId,
                      direction := signal.direction, fraction := sized }

/-- A concrete signal used to exercise `evaluate`. -/
def sampleSignal : Signal :=
  { marketId := "FED-25DEC", strategyId := "sentiment",
    direction := .buy, strength := 4/5, suggestedFraction := 1/20 }

/-- A concrete portfolio state used to exercise `evaluate`. -/
def samplePortfolio : PortfolioState :=
  { dailyTradeCount := 3, dailyLoss := 120,
    positionFraction := [("FED-25DEC", 1/50)],
    totalExposure := 3/10,
    unrealizedLossPct := [("FED-25DEC", 2/100)],
    pairwiseCorrelation := [("FED-25DEC", "CPI-25NOV", 3/5)] }

/-- A concrete limits record used to exercise `evaluate`. -/
def sampleLimits : RiskLimits :=
  { maxPortfolioExposure := 4/5, maxPositionSize := 1/10,
    maxDailyTrades := 50, maxDailyLoss := 500,
    stopLossEnabled := true, stopLossPercentage := 15/100,
    maxCorrelation := 4/5 }

end RiskManager

end KalshiBot

namespace KalshiBot

/-!
Theorems. Each claim theorem is stated over the embedded handlers of both the
telegram webapp page and the desktop admin panel page wherever both implement
the operation.
-/

/-- C1 counterexample: emergency stop does not lead to a state distinct from
Stopped. From the concrete Running(Trading) state, `handleEmergencyStop`
yields exactly the same bot-status record as `handleStopBot`: `isRunning`
and `isTradingEnabled` both false — the ordinary Stopped state. No
`EmergencyStopped` state exists in the status record. -/
theorem c1_counterexample :
    (Trading.handleEmergencyStop
        { isRunning := true, isTradingEnabled := true, lastUpdate := some "t0" } "t1").1
      = (Trading.handleStopBot
        { isRunning := true, isTradingEnabled := true, lastUpdate := some "t0" } "t1").1 ∧
    (Trading.handleEmergencyStop
        { isRunning := true, isTradingEnabled := true, lastUpdate := some "t0" } "t1").1.isRunning
      = false ∧
    (Trading.handleEmergencyStop
        { isRunning := true, isTradingEnabled := true, lastUpdate := some "t0" } "t1").1.isTradingEnabled
      = false := by
  exact ⟨rfl, rfl, rfl⟩

/-- C1 (amended): invoking emergency stop in any bot state always succeeds
(the button is enabled whenever no request is in flight) and transitions the
bot to the ordinary Stopped state — `isRunning = false`,
`isTradingEnabled = false` — producing exactly the same status record as the
plain stop operation; there is no distinct EmergencyStopped state. This holds
for both the webapp and the desktop panel handlers. -/
theorem c1_emergencyStop_is_ordinary_stop (s : BotStatus) (now : String) :
    (Trading.handleEmergencyStop s now).1
      = { isRunning := false, isTradingEnabled := false, lastUpdate := some now } ∧
    (Trading.handleEmergencyStop s now).1 = (Trading.handleStopBot s now).1 ∧
    (TradingControl.handleEmergencyStop s now).1 = (TradingControl.handleStopBot s now).1 ∧
    Trading.emergencyStop s now false = some (Trading.handleEmergencyStop s now) ∧
    TradingControl.emergencyStop s now false = some (TradingControl.handleEmergencyStop s now) := by
  cases s
  exact ⟨rfl, rfl, rfl, rfl, rfl⟩

/-- C2: when the bot is not running, the trading toggle signals an error toast
("Bot must be running ...") and returns the status record unchanged — the
identical record, so `isRunning`, `isTradingEnabled` and `lastUpdate` all keep
their prior values — in both the webapp and the desktop panel handlers. -/
theorem c2_toggle_not_running_errors (s : BotStatus) (now : String)
    (h : s.isRunning = false) :
    Trading.handleToggleTrading s now = (s, Toast.error "Bot must be running first") ∧
    TradingControl.handleToggleTrading s now
      = (s, Toast.error "Bot must be running to enable trading") := by
  simp [Trading.handleToggleTrading, TradingControl.handleToggleTrading, h]

/-- Witness for C2 at the initial (stopped) state. -/
theorem c2_witness :
    Trading.handleToggleTrading initialBotStatus "t"
      = (initialBotStatus, Toast.error "Bot must be running first") ∧
    TradingControl.handleToggleTrading initialBotStatus "t"
      = (initialBotStatus, Toast.error "Bot must be running to enable trading") :=
  c2_toggle_not_running_errors initialBotStatus "t" rfl

/-- C3: from the Stopped state (`isRunning = false`, `isTradingEnabled =
false`) the start operation yields Running(Monitoring): `isRunning = true`
with `isTradingEnabled = false`; and in any state where the bot is already
running the start operation is unavailable (the Start Bot button is disabled,
for any value of the in-flight flag), so it cannot succeed or re-enter
Running. Both UI versions. -/
theorem c3_start (s : BotStatus) (now : String) :
    (s.isRunning = false → s.isTradingEnabled = false →
      Trading.startBot s now false
        = some ({ isRunning := true, isTradingEnabled := false, lastUpdate := some now },
                Toast.success "Trading bot started") ∧
      TradingControl.startBot s now false
        = some ({ isRunning := true, isTradingEnabled := false, lastUpdate := some now },
                Toast.success "Trading bot started successfully")) ∧
    (s.isRunning = true → ∀ isLoading : Bool,
      Trading.startBot s now isLoading = none ∧
      TradingControl.startBot s now isLoading = none) := by
  obtain ⟨r, t, u⟩ := s
  constructor
  · rintro rfl rfl
    exact ⟨rfl, rfl⟩
  · rintro rfl isLoading
    exact ⟨rfl, rfl⟩

/-- Witness for C3 at the initial (stopped) state. -/
theorem c3_witness :
    Trading.startBot initialBotStatus "t" false
      = some ({ isRunning := true, isTradingEnabled := false, lastUpdate := some "t" },
              Toast.success "Trading bot started") ∧
    TradingControl.startBot initialBotStatus "t" false
      = some ({ isRunning := true, isTradingEnabled := false, lastUpdate := some "t" },
              Toast.success "Trading bot started successfully") :=
  (c3_start initialBotStatus "t").1 rfl rfl

/-- C4: from every Running state — whatever the current trading mode — the
stop operation completes and yields the Stopped state: `isRunning = false`
and `isTradingEnabled = false`. Both UI versions. -/
theorem c4_stop_to_stopped (s : BotStatus) (now : String)
    (h : s.isRunning = true) :
    Trading.stopBot s now false
      = some ({ isRunning := false, isTradingEnabled := false, lastUpdate := some now },
              Toast.success "Trading bot stopped") ∧
    TradingControl.stopBot s now false
      = some ({ isRunning := false, isTradingEnabled := false, lastUpdate := some now },
              Toast.success "Trading bot stopped successfully") := by
  obtain ⟨r, t, u⟩ := s
  subst h
  exact ⟨rfl, rfl⟩

/-- Witness for C4 at a Running(Trading) state. -/
theorem c4_witness :
    Trading.stopBot { isRunning := true, isTradingEnabled := true, lastUpdate := none } "t" false
      = some ({ isRunning := false, isTradingEnabled := false, lastUpdate := some "t" },
              Toast.success "Trading bot stopped") ∧
    TradingControl.stopBot { isRunning := true, isTradingEnabled := true, lastUpdate := none } "t" false
      = some ({ isRunning := false, isTradingEnabled := false, lastUpdate := some "t" },
              Toast.success "Trading bot stopped successfully") :=
  c4_stop_to_stopped { isRunning := true, isTradingEnabled := true, lastUpdate := none } "t" rfl

/-- C5: while the bot is running, the trading toggle flips
`isTradingEnabled` and preserves `isRunning = true`, so Running(Monitoring)
and Running(Trading) are exchanged, and applying the toggle twice restores
the original trading mode. Both UI versions. -/
theorem c5_toggle_flips_and_is_involutive (s : BotStatus) (n1 n2 : String)
    (h : s.isRunning = true) :
    ((Trading.handleToggleTrading s n1).1).isTradingEnabled = !s.isTradingEnabled ∧
    ((Trading.handleToggleTrading s n1).1).isRunning = true ∧
    ((Trading.handleToggleTrading (Trading.handleToggleTrading s n1).1 n2).1).isTradingEnabled
      = s.isTradingEnabled ∧
    ((TradingControl.handleToggleTrading s n1).1).isTradingEnabled = !s.isTradingEnabled ∧
    ((TradingControl.handleToggleTrading s n1).1).isRunning = true ∧
    ((TradingControl.handleToggleTrading (TradingControl.handleToggleTrading s n1).1 n2).1).isTradingEnabled
      = s.isTradingEnabled := by
  obtain ⟨r, t, u⟩ := s
  subst h
  cases t <;> exact ⟨rfl, rfl, rfl, rfl, rfl, rfl⟩

/-- Witness for C5 at the Running(Monitoring) state. -/
theorem c5_witness :
    ((Trading.handleToggleTrading { isRunning := true, isTradingEnabled := false, lastUpdate := none } "a").1).isTradingEnabled = !false ∧
    ((Trading.handleToggleTrading { isRunning := true, isTradingEnabled := false, lastUpdate := none } "a").1).isRunning = true ∧
    ((Trading.handleToggleTrading (Trading.handleToggleTrading { isRunning := true, isTradingEnabled := false, lastUpdate := none } "a").1 "b").1).isTradingEnabled = false ∧
    ((TradingControl.handleToggleTrading { isRunning := true, isTradingEnabled := false, lastUpdate := none } "a").1).isTradingEnabled = !false ∧
    ((TradingControl.handleToggleTrading { isRunning := true, isTradingEnabled := false, lastUpdate := none } "a").1).isRunning = true ∧
    ((TradingControl.handleToggleTrading (TradingControl.handleToggleTrading { isRunning := true, isTradingEnabled := false, lastUpdate := none } "a").1 "b").1).isTradingEnabled = false :=
  c5_toggle_flips_and_is_involutive
    { isRunning := true, isTradingEnabled := false, lastUpdate := none } "a" "b" rfl

/-- C6 counterexample: the save operation accepts a configuration whose
limits are out of the documented ranges. `badSettings` has zero allowed
daily trades (editor minimum 1) and a 10-second trading interval (editor
minimum 60), yet `handleSaveSettings` reports success — not an error — so
the claim that contradictory configurations are rejected at save time is
false. -/
theorem c6_counterexample :
    TradingControl.settingsInRange TradingControl.badSettings = false ∧
    TradingControl.handleSaveSettings TradingControl.badSettings
      = Toast.success "Settings saved successfully" ∧
    (TradingControl.handleSaveSettings TradingControl.badSettings).isError = false := by
  refine ⟨by decide, rfl, rfl⟩

/-- C6 (amended): the save operation performs no validation at all: for every
submitted configuration — in range or not, contradictory or not — both the
desktop panel's `handleSaveSettings` and the webapp settings page's
`handleSaveSettings` report unconditional success, never signal an error,
and never transform (in particular never clamp) the configuration, whose
value they do not even inspect. -/
theorem c6_save_accepts_everything (cfg : TradingControl.TradingSettings)
    (rs : Settings.RiskSettings) :
    TradingControl.handleSaveSettings cfg = Toast.success "Settings saved successfully" ∧
    (TradingControl.handleSaveSettings cfg).isError = false ∧
    Settings.handleSaveSettings rs = Toast.success "Settings saved successfully" ∧
    (Settings.handleSaveSettings rs).isError = false :=
  ⟨rfl, rfl, rfl, rfl⟩

/-- C7: `RiskManager.evaluate` is deterministic and pure — two invocations
with identical (signal, portfolioState, limits) inputs return the identical
decision; the function reads nothing but its three arguments. -/
theorem c7_evaluate_deterministic (s1 s2 : RiskManager.Signal)
    (p1 p2 : RiskManager.PortfolioState) (l1 l2 : RiskManager.RiskLimits)
    (hs : s1 = s2) (hp : p1 = p2) (hl : l1 = l2) :
    RiskManager.evaluate s1 p1 l1 = RiskManager.evaluate s2 p2 l2 := by
  subst hs
  subst hp
  subst hl
  rfl

/-- Witness for C7 at concrete sample inputs. -/
theorem c7_witness :
    RiskManager.evaluate RiskManager.sampleSignal RiskManager.samplePortfolio
        RiskManager.sampleLimits
      = RiskManager.evaluate RiskManager.sampleSignal RiskManager.samplePortfolio
        RiskManager.sampleLimits :=
  c7_evaluate_deterministic RiskManager.sampleSignal RiskManager.sampleSignal
    RiskManager.samplePortfolio RiskManager.samplePortfolio
    RiskManager.sampleLimits RiskManager.sampleLimits rfl rfl rfl

/-- Helper: each of the four control handlers preserves the invariant
"trading enabled implies running". -/
theorem applyOp_preserves_inv (s : BotStatus) (op : ControlOp)
    (h : s.isTradingEnabled = true → s.isRunning = true) :
    (applyOp s op).isTradingEnabled = true → (applyOp s op).isRunning = true := by
  obtain ⟨r, t, u⟩ := s
  cases op <;> cases r <;> cases t <;>
    simp_all [applyOp, Trading.handleStartBot, Trading.handleStopBot,
      Trading.handleToggleTrading, Trading.handleEmergencyStop]

/-- Helper: the invariant "trading enabled implies running" is preserved by
any sequence of control operations. -/
theorem runOps_preserves_inv (ops : List ControlOp) (s : BotStatus)
    (h : s.isTradingEnabled = true → s.isRunning = true) :
    (runOps s ops).isTradingEnabled = true → (runOps s ops).isRunning = true := by
  induction ops generalizing s with
  | nil => exact h
  | cons op rest ih => exact ih (applyOp s op) (applyOp_preserves_inv s op h)

/-- C8: starting from the initial status (`isRunning = false`,
`isTradingEnabled = false`), every state reachable by any sequence of the
four control operations (start, stop, trading toggle, emergency stop)
satisfies: if trading is enabled then the bot is running — trading is never
enabled while the bot is stopped. -/
theorem c8_trading_implies_running (ops : List ControlOp)
    (h : (runOps initialBotStatus ops).isTradingEnabled = true) :
    (runOps initialBotStatus ops).isRunning = true :=
  runOps_preserves_inv ops initialBotStatus (fun hx => Bool.noConfusion hx) h

/-- Witness for C8: after start then toggle, trading is enabled and the bot
is indeed running. -/
theorem c8_witness :
    (runOps initialBotStatus [ControlOp.start "a", ControlOp.toggle "b"]).isTradingEnabled = true ∧
    (runOps initialBotStatus [ControlOp.start "a", ControlOp.toggle "b"]).isRunning = true :=
  ⟨by decide, c8_trading_implies_running [ControlOp.start "a", ControlOp.toggle "b"] (by decide)⟩

/-- C9: for a two-strategy list in which exactly one strategy carries the
targeted id, the allocation-change operation leaves the allocations summing
to exactly 100: the targeted strategy receives the new allocation and the
other receives 100 minus it. -/
theorem c9_allocation_sum (a b : Strategies.Strategy) (sid : String)
    (newAllocation : Int)
    (h : (a.id = sid ∧ ¬ b.id = sid) ∨ (¬ a.id = sid ∧ b.id = sid)) :
    Strategies.allocationSum
      (Strategies.handleAllocationChange sid newAllocation [a, b]) = 100 := by
  rcases h with ⟨h1, h2⟩ | ⟨h1, h2⟩ <;>
    simp [Strategies.allocationSum, Strategies.handleAllocationChange, h1, h2]

/-- Witness for C9: moving the sentiment strategy to 70% leaves the two
allocations summing to 100. -/
theorem c9_witness :
    Strategies.allocationSum
      (Strategies.handleAllocationChange "sentiment" 70
        [Strategies.sentimentStrategy, Strategies.arbitrageStrategy]) = 100 :=
  c9_allocation_sum Strategies.sentimentStrategy Strategies.arbitrageStrategy
    "sentiment" 70 (Or.inl ⟨rfl, by decide⟩)

/-- C10: the strategy toggle is a pure frame update: at every position of the
list, the result keeps the strategy's id, name, description, allocation,
performance and settings unchanged, and its `enabled` flag is negated exactly
when its id is the toggled id and kept unchanged otherwise. -/
theorem c10_toggle_frame (sid : String) (l : List Strategies.Strategy) (i : Nat)
    (h : i < l.length) :
    (((Strategies.handleToggleStrategy sid l).getD i Strategies.dummyStrategy).id
        = ((l.getD i Strategies.dummyStrategy)).id) ∧
    (((Strategies.handleToggleStrategy sid l).getD i Strategies.dummyStrategy).name
        = ((l.getD i Strategies.dummyStrategy)).name) ∧
    (((Strategies.handleToggleStrategy sid l).getD i Strategies.dummyStrategy).description
        = ((l.getD i Strategies.dummyStrategy)).description) ∧
    (((Strategies.handleToggleStrategy sid l).getD i Strategies.dummyStrategy).allocation
        = ((l.getD i Strategies.dummyStrategy)).allocation) ∧
    (((Strategies.handleToggleStrategy sid l).getD i Strategies.dummyStrategy).performance
        = ((l.getD i Strategies.dummyStrategy)).performance) ∧
    (((Strategies.handleToggleStrategy sid l).getD i Strategies.dummyStrategy).settings
        = ((l.getD i Strategies.dummyStrategy)).settings) ∧
    (((Strategies.handleToggleStrategy sid l).getD i Strategies.dummyStrategy).enabled
        = if (l.getD i Strategies.dummyStrategy).id = sid
          then !(l.getD i Strategies.dummyStrategy).enabled
          else (l.getD i Strategies.dummyStrategy).enabled) := by
  induction l generalizing i with
  | nil => simp at h
  | cons hd tl ih =>
    cases i with
    | zero =>
      by_cases hid : hd.id = sid <;>
        simp [Strategies.handleToggleStrategy, hid]
    | succ n =>
      have hn : n < tl.length := by simpa using h
      simpa [Strategies.handleToggleStrategy] using ih n hn

/-- Witness for C10: toggling the arbitrage strategy in the initial list
changes only its `enabled` flag at position 1. -/
theorem c10_witness :
    (((Strategies.handleToggleStrategy "arbitrage" Strategies.initialStrategies).getD 1 Strategies.dummyStrategy).id
        = ((Strategies.initialStrategies.getD 1 Strategies.dummyStrategy)).id) ∧
    (((Strategies.handleToggleStrategy "arbitrage" Strategies.initialStrategies).getD 1 Strategies.dummyStrategy).name
        = ((Strategies.initialStrategies.getD 1 Strategies.dummyStrategy)).name) ∧
    (((Strategies.handleToggleStrategy "arbitrage" Strategies.initialStrategies).getD 1 Strategies.dummyStrategy).description
        = ((Strategies.initialStrategies.getD 1 Strategies.dummyStrategy)).description) ∧
    (((Strategies.handleToggleStrategy "arbitrage" Strategies.initialStrategies).getD 1 Strategies.dummyStrategy).allocation
        = ((Strategies.initialStrategies.getD 1 Strategies.dummyStrategy)).allocation) ∧
    (((Strategies.handleToggleStrategy "arbitrage" Strategies.initialStrategies).getD 1 Strategies.dummyStrategy).performance
        = ((Strategies.initialStrategies.getD 1 Strategies.dummyStrategy)).performance) ∧
    (((Strategies.handleToggleStrategy "arbitrage" Strategies.initialStrategies).getD 1 Strategies.dummyStrategy).settings
        = ((Strategies.initialStrategies.getD 1 Strategies.dummyStrategy)).settings) ∧
    (((Strategies.handleToggleStrategy "arbitrage" Strategies.initialStrategies).getD 1 Strategies.dummyStrategy).enabled
        = if (Strategies.initialStrategies.getD 1 Strategies.dummyStrategy).id = "arbitrage"
          then !(Strategies.initialStrategies.getD 1 Strategies.dummyStrategy).enabled
          else (Strategies.initialStrategies.getD 1 Strategies.dummyStrategy).enabled) :=
  c10_toggle_frame "arbitrage" Strategies.initialStrategies 1 (by decide)

end KalshiBot
